import Mathlib

/-!
Verification of the game-state core of `solar_system.py` (a 3D arcade shooter
over a planetary-orbit visualization).

The Python source computes with floats and calls `math.sqrt`, `math.cos`,
`math.sin`, `math.pi` and the `random` module.  The shallow embedding works
over `ℚ` and treats those library functions as an opaque `Oracle` of rational
functions; random draws are an oracle stream consumed at an explicitly
threaded counter, which makes every frame deterministic and executable.
Comparisons of the form `math.sqrt a < b` (with `a` a sum of squares, hence
nonnegative) are embedded as `0 < b ∧ a < b ^ 2`, which is equivalent over
the reals; this keeps the collision predicates exactly computable.

Fields of the Python classes that are only read by `draw()` (colors, names,
textures, camera parameters, unused leftovers like `Player.lasers`) are not
part of the state model; every field read or written by the update logic is.
-/

/-- Oracle for the opaque math library and random-number generator used by
the source: `sqrt`, `cos`, `sin` stand for `math.sqrt/cos/sin`, `piQ` for
`math.pi`, `rnd k` for the `k`-th draw of `random.random`/`random.uniform`,
and `rndN k` for the `k`-th `random.choice` index draw. -/
structure Oracle where
  sqrt : ℚ → ℚ
  cos : ℚ → ℚ
  sin : ℚ → ℚ
  piQ : ℚ
  rnd : ℕ → ℚ
  rndN : ℕ → ℕ

/-- Embeds `random.uniform a b` at draw counter `k`. -/
def uniform (o : Oracle) (k : ℕ) (a b : ℚ) : ℚ :=
  a + (b - a) * o.rnd k

/-- Embeds `math.radians x = x * math.pi / 180`. -/
def radians (o : Oracle) (x : ℚ) : ℚ :=
  x * o.piQ / 180

/-- Embeds the comparison `math.sqrt a < b` for `a ≥ 0` (true square roots
are nonnegative, so the comparison holds iff `b` is positive and `a < b²`). -/
def sqrtLt (a b : ℚ) : Bool :=
  decide (0 < b) && decide (a < b ^ 2)

/-- Three rational components; stands for the `[x, y, z]` lists the source
uses for positions, velocities and directions. -/
structure Vec3 where
  x : ℚ
  y : ℚ
  z : ℚ
deriving DecidableEq

/-- Squared Euclidean distance between two points. -/
def distSq (a b : Vec3) : ℚ :=
  (a.x - b.x) ^ 2 + (a.y - b.y) ^ 2 + (a.z - b.z) ^ 2

-- Game constants from the top of the source file.
def PLAYER_SPEED : ℚ := 0.15
def LASER_SPEED : ℚ := 1.5
def SCORE_PER_HIT : ℤ := 100
def GRAVITY : ℚ := 0.0005
def FLOAT_FORCE : ℚ := 0.001
def POWERUP_DURATION : ℚ := 10.0
def WAVE_DURATION : ℚ := 30.0
def COMBO_TIMEOUT : ℚ := 2.0
def SUPER_POWER_COOLDOWN : ℚ := 10.0
def SUPER_POWER_DURATION : ℚ := 2.0
def WINDOW_WIDTH : ℚ := 1200
def WINDOW_HEIGHT : ℚ := 800

/-- The four weapon identifiers of `WEAPON_TYPES`. -/
inductive Weapon
  | laser
  | plasma
  | missile
  | railgun
deriving DecidableEq

/-- Column `damage` of `WEAPON_TYPES`. -/
def Weapon.damage : Weapon → ℤ
  | .laser => 1
  | .plasma => 2
  | .missile => 3
  | .railgun => 4

/-- Column `speed` of `WEAPON_TYPES`. -/
def Weapon.speedStat : Weapon → ℚ
  | .laser => 1.5
  | .plasma => 1.0
  | .missile => 0.8
  | .railgun => 2.0

/-- Column `cooldown` of `WEAPON_TYPES`. -/
def Weapon.cooldown : Weapon → ℚ
  | .laser => 0.2
  | .plasma => 0.4
  | .missile => 0.8
  | .railgun => 1.0

/-- Column `spread` of `WEAPON_TYPES`. -/
def Weapon.spread : Weapon → ℚ
  | .laser => 0.05
  | .plasma => 0.1
  | .missile => 0.02
  | .railgun => 0.0

/-- State of class `Projectile` (visual-only fields omitted). -/
structure Projectile where
  position : Vec3
  direction : Vec3
  weapon : Weapon
  speed : ℚ
  lifetime : ℚ
  active : Bool
  radius : ℚ
  length : ℚ
deriving DecidableEq

/-- Embeds `Projectile.__init__`: direction is the normalized vector from
`start` to `target` (zero if the oracle length is not positive), speed is the
weapon's speed stat times the `LASER_SPEED` global. -/
def mkProjectile (o : Oracle) (start target : Vec3) (w : Weapon) : Projectile :=
  let dx := target.x - start.x
  let dy := target.y - start.y
  let dz := target.z - start.z
  let len := o.sqrt (dx * dx + dy * dy + dz * dz)
  { position := start
    direction := if 0 < len then ⟨dx / len, dy / len, dz / len⟩ else ⟨0, 0, 0⟩
    weapon := w
    speed := w.speedStat * LASER_SPEED
    lifetime := 1.0
    active := true
    radius := 2.0
    length := 5.0 }

/-- Embeds `Projectile.update`: move one speed-step along the direction
(the source does not scale the move by `time_delta`), decrement lifetime,
deactivate once the lifetime is nonpositive. -/
def Projectile.update (p : Projectile) (dt : ℚ) : Projectile :=
  let pos := ⟨p.position.x + p.direction.x * p.speed,
              p.position.y + p.direction.y * p.speed,
              p.position.z + p.direction.z * p.speed⟩
  let life := p.lifetime - dt
  { p with position := pos, lifetime := life,
           active := if life ≤ 0 then false else p.active }

/-- Enemy kind tags drawn by `random.choice(['normal', 'fast', 'tank'])`. -/
inductive EKind
  | normal
  | fast
  | tank
deriving DecidableEq

/-- State of class `Enemy`; the boss (`BossEnemy`) carries the same fields
with overridden stats, so `World.boss` is an optional `Enemy`. -/
structure Enemy where
  position : Vec3
  radius : ℚ
  speed : ℚ
  angle : ℚ
  active : Bool
  health : ℤ
  hit_cooldown : ℚ
  type : EKind
deriving DecidableEq

/-- Embeds `Enemy.__init__`; consumes three oracle draws (speed, angle,
kind choice) and returns the next draw counter. -/
def mkEnemy (o : Oracle) (k : ℕ) (pos : Vec3) : Enemy × ℕ :=
  let speed := uniform o k 0.1 0.3
  let angle := uniform o (k + 1) 0 360
  let t : EKind :=
    match o.rndN (k + 2) % 3 with
    | 0 => .normal
    | 1 => .fast
    | _ => .tank
  let e : Enemy :=
    { position := pos, radius := 1.0, speed := speed, angle := angle,
      active := true, health := 2, hit_cooldown := 0, type := t }
  let e :=
    match t with
    | .fast => { e with speed := e.speed * 1.5, health := 1 }
    | .tank => { e with speed := e.speed * 0.7, health := 4, radius := 1.5 }
    | .normal => e
  (e, k + 3)

/-- Embeds `BossEnemy.__init__`: runs the `Enemy` constructor (consuming its
draws) and then overrides radius, health, speed and hit cooldown. -/
def mkBoss (o : Oracle) (k : ℕ) (pos : Vec3) : Enemy × ℕ :=
  let (e, k') := mkEnemy o k pos
  ({ e with radius := 3.0, health := 10, speed := 0.12, hit_cooldown := 0 }, k')

/-- Embeds `Enemy.update`: tick the hit cooldown and step at constant speed
straight toward the player's current position. -/
def Enemy.update (o : Oracle) (e : Enemy) (dt : ℚ) (playerPos : Vec3) : Enemy :=
  let hc := if 0 < e.hit_cooldown then e.hit_cooldown - dt else e.hit_cooldown
  let dx := playerPos.x - e.position.x
  let dy := playerPos.y - e.position.y
  let dz := playerPos.z - e.position.z
  let dist := o.sqrt (dx * dx + dy * dy + dz * dz)
  let pos :=
    if 0 < dist then
      ⟨e.position.x + dx / dist * e.speed,
       e.position.y + dy / dist * e.speed,
       e.position.z + dz / dist * e.speed⟩
    else e.position
  { e with hit_cooldown := hc, position := pos }

/-- State of class `Bomb`. -/
structure Bomb where
  position : Vec3
  direction : Vec3
  speed : ℚ
  lifetime : ℚ
  active : Bool
  exploded : Bool
  explosion_radius : ℚ
  explosion_time : ℚ
deriving DecidableEq

/-- Embeds `Bomb.__init__`. -/
def mkBomb (o : Oracle) (start target : Vec3) : Bomb :=
  let dx := target.x - start.x
  let dy := target.y - start.y
  let dz := target.z - start.z
  let len := o.sqrt (dx * dx + dy * dy + dz * dz)
  { position := start
    direction := if 0 < len then ⟨dx / len, dy / len, dz / len⟩ else ⟨0, 0, 0⟩
    speed := LASER_SPEED * 0.5
    lifetime := 2.0
    active := true
    exploded := false
    explosion_radius := 5.0
    explosion_time := 0.5 }

/-- Embeds `Bomb.update`: while traveling, move and decrement the travel
lifetime, detonating when it is nonpositive; once detonated, decrement the
linger timer and deactivate when it is nonpositive. -/
def Bomb.update (b : Bomb) (dt : ℚ) : Bomb :=
  if b.exploded then
    let et := b.explosion_time - dt
    { b with explosion_time := et, active := if et ≤ 0 then false else b.active }
  else
    let pos := ⟨b.position.x + b.direction.x * b.speed,
                b.position.y + b.direction.y * b.speed,
                b.position.z + b.direction.z * b.speed⟩
    let life := b.lifetime - dt
    { b with position := pos, lifetime := life,
             exploded := if life ≤ 0 then true else b.exploded }

/-- The four power-up kinds of `POWERUP_TYPES`. -/
inductive PKind
  | health
  | speed
  | shield
  | multishot
deriving DecidableEq

/-- State of class `PowerUp` (colors and rotation are draw-only). -/
structure PowerUp where
  position : Vec3
  radius : ℚ
  type : PKind
deriving DecidableEq

/-- Embeds `PowerUp.__init__`; the kind is one `random.choice` draw. -/
def mkPowerUp (o : Oracle) (k : ℕ) (pos : Vec3) : PowerUp × ℕ :=
  let t : PKind :=
    match o.rndN k % 4 with
    | 0 => .health
    | 1 => .speed
    | 2 => .shield
    | _ => .multishot
  ({ position := pos, radius := 0.8, type := t }, k + 1)

/-- State of class `Particle` (color is draw-only). -/
structure Particle where
  position : Vec3
  velocity : Vec3
  lifetime : ℚ
  alpha : ℚ
deriving DecidableEq

/-- Embeds `Particle.update`: integrate position, decrement lifetime, and
derive the fade factor `alpha = lifetime / 0.5`. -/
def Particle.update (p : Particle) (dt : ℚ) : Particle :=
  { p with
    position := ⟨p.position.x + p.velocity.x * dt,
                 p.position.y + p.velocity.y * dt,
                 p.position.z + p.velocity.z * dt⟩
    lifetime := p.lifetime - dt
    alpha := (p.lifetime - dt) / 0.5 }

/-- Power-up duration values: ordinary finite seconds, or the
`float('inf')` sentinel that cheat mode stores. -/
inductive PTime
  | fin (t : ℚ)
  | inf
deriving DecidableEq

/-- Embeds the comparison `duration > 0` (`inf > 0` is true). -/
def PTime.isPos : PTime → Bool
  | .fin t => decide (0 < t)
  | .inf => true

/-- Embeds `duration - dt` (`inf - dt` stays `inf`). -/
def PTime.sub : PTime → ℚ → PTime
  | .fin t, dt => .fin (t - dt)
  | .inf, _ => .inf

/-- Embeds the comparison `duration <= 0` (`inf <= 0` is false). -/
def PTime.nonpos : PTime → Bool
  | .fin t => decide (t ≤ 0)
  | .inf => false

/-- Snapshot of the pressed-key set consumed each frame (only the keys the
update logic reads). -/
structure Keys where
  f : Bool
  f1 : Bool
  f2 : Bool
  a : Bool
  d : Bool
  w : Bool
  s : Bool
  space : Bool
  lshift : Bool
  k1 : Bool
  k2 : Bool
  k3 : Bool
  k4 : Bool
  r : Bool
  left : Bool
  right : Bool
  up : Bool
  down : Bool

/-- Per-frame external inputs: the math/random oracle, key snapshot, pointer
position, left pointer button, and `pygame.time.get_ticks() / 1000.0`. -/
structure Env where
  o : Oracle
  keys : Keys
  mouseX : ℚ
  mouseY : ℚ
  mouseLeft : Bool
  now : ℚ

/-- State of class `Player` (draw-only and dead fields such as `lasers`,
`angle`, `shoot_delay`, `bomb_delay`, `last_bomb_time` are omitted; the
`powerups` dict becomes the three `pu_*` fields). -/
structure Player where
  position : Vec3
  velocity : Vec3
  lives : ℤ
  score : ℤ
  bombs : List Bomb
  last_shot_time : ℚ
  is_floating : Bool
  is_dead : Bool
  respawn_time : ℚ
  invincible_time : ℚ
  cheat_mode : Bool
  auto_fire : Bool
  last_auto_fire_time : ℚ
  auto_fire_delay : ℚ
  aim_mode : ℕ
  pu_speed : PTime
  pu_shield : PTime
  pu_multishot : PTime
  shield_active : Bool
  combo : ℕ
  last_kill_time : ℚ
  particles : List Particle
  current_weapon : Weapon
  projectiles : List Projectile
  super_power_ready : Bool
  super_power_cooldown : ℚ
  super_power_active : Bool
  super_power_timer : ℚ
deriving DecidableEq

/-- Embeds `Player.__init__`. -/
def mkPlayer : Player :=
  { position := ⟨0, 0, 20⟩
    velocity := ⟨0, 0, 0⟩
    lives := 3
    score := 0
    bombs := []
    last_shot_time := 0
    is_floating := true
    is_dead := false
    respawn_time := 0
    invincible_time := 2.0
    cheat_mode := false
    auto_fire := false
    last_auto_fire_time := 0
    auto_fire_delay := 0.3
    aim_mode := 0
    pu_speed := .fin 0
    pu_shield := .fin 0
    pu_multishot := .fin 0
    shield_active := false
    combo := 0
    last_kill_time := 0
    particles := []
    current_weapon := .laser
    projectiles := []
    super_power_ready := true
    super_power_cooldown := 0
    super_power_active := false
    super_power_timer := 0 }

/-- Embeds `Player.reset`: only the fields listed in the source are reset;
power-ups, weapon, projectiles, particles and super-power state persist. -/
def Player.reset (p : Player) : Player :=
  { p with
    position := ⟨0, 0, 20⟩
    velocity := ⟨0, 0, 0⟩
    lives := 3
    score := 0
    bombs := []
    is_dead := false
    respawn_time := 0
    cheat_mode := false
    auto_fire := false }

/-- Embeds `Player.take_damage`: a no-op unless the invincibility window has
elapsed and cheat mode is off; otherwise lose a life and either die or start
the invincibility window and teleport back to the spawn point. -/
def Player.take_damage (p : Player) : Player :=
  if p.respawn_time ≤ 0 ∧ ¬p.cheat_mode then
    let p := { p with lives := p.lives - 1 }
    if p.lives ≤ 0 then { p with is_dead := true }
    else { p with respawn_time := p.invincible_time, position := ⟨0, 0, 20⟩ }
  else p

/-- The 100 outward-radial particles the super-power activation emits;
each consumes three draws (angle, speed, z velocity). -/
def superParticles (o : Oracle) (pos : Vec3) (k : ℕ) : List Particle × ℕ :=
  ((List.range 100).map fun j =>
    let ang := uniform o (k + 3 * j) 0 360
    let sp := uniform o (k + 3 * j + 1) 5 15
    let vz := uniform o (k + 3 * j + 2) (-5) 5
    { position := pos
      velocity := ⟨o.cos (radians o ang) * sp, o.sin (radians o ang) * sp, vz⟩
      lifetime := 1.0
      alpha := 1.0 }, k + 300)

/-- Embeds the super-power block of `Player.update` (cooldown tick, duration
tick, and the F-key burst activation). -/
def Player.superPowerStep (env : Env) (dt : ℚ) (k : ℕ) (p : Player) : Player × ℕ :=
  let p :=
    if ¬p.super_power_ready then
      let cd := p.super_power_cooldown - dt
      { p with super_power_cooldown := cd,
               super_power_ready := if cd ≤ 0 then true else p.super_power_ready }
    else p
  let p :=
    if p.super_power_active then
      let t := p.super_power_timer - dt
      { p with super_power_timer := t,
               super_power_active := if t ≤ 0 then false else p.super_power_active }
    else p
  if env.keys.f ∧ p.super_power_ready then
    let (burst, k') := superParticles env.o p.position k
    ({ p with super_power_ready := false
              super_power_cooldown := SUPER_POWER_COOLDOWN
              super_power_active := true
              super_power_timer := SUPER_POWER_DURATION
              particles := p.particles ++ burst }, k')
  else (p, k)

/-- Embeds the F1 cheat-mode branch of `Player.update`: switching on grants
999 lives, auto-fire, a permanent shield and infinite power-up durations;
switching off restores 3 lives and clears them. -/
def Player.cheatStep (keys : Keys) (p : Player) : Player :=
  if keys.f1 ∧ ¬p.cheat_mode then
    { p with cheat_mode := true, lives := 999, auto_fire := true,
             shield_active := true, pu_shield := .inf, pu_speed := .inf,
             pu_multishot := .inf }
  else if keys.f1 ∧ p.cheat_mode then
    { p with cheat_mode := false, lives := 3, auto_fire := false,
             shield_active := false, pu_shield := .fin 0, pu_speed := .fin 0,
             pu_multishot := .fin 0 }
  else p

/-- Embeds the F2 aim-mode cycle of `Player.update`. -/
def Player.aimStep (keys : Keys) (p : Player) : Player :=
  if keys.f2 then { p with aim_mode := (p.aim_mode + 1) % 3 } else p

/-- Embeds the buoyancy block of `Player.update`: constant downward pull,
with corrective thrust below altitude 5 and above altitude 30. -/
def Player.floatStep (p : Player) : Player :=
  if p.is_floating then
    let vz := p.velocity.z - GRAVITY
    let vz := if p.position.z < 5 then vz + FLOAT_FORCE else vz
    let vz := if 30 < p.position.z then vz - FLOAT_FORCE else vz
    { p with velocity := ⟨p.velocity.x, p.velocity.y, vz⟩ }
  else p

/-- Embeds the position integration of `Player.update` (one velocity step
per frame, not scaled by `time_delta`). -/
def Player.integrateStep (p : Player) : Player :=
  { p with position := ⟨p.position.x + p.velocity.x,
                        p.position.y + p.velocity.y,
                        p.position.z + p.velocity.z⟩ }

/-- Embeds the planar movement keys of `Player.update`: a pressed axis sets
the velocity to `PLAYER_SPEED`; a released axis decays by factor 0.9. -/
def Player.moveStep (keys : Keys) (p : Player) : Player :=
  let vx := if keys.a then -PLAYER_SPEED
            else if keys.d then PLAYER_SPEED
            else p.velocity.x * 0.9
  let vy := if keys.w then PLAYER_SPEED
            else if keys.s then -PLAYER_SPEED
            else p.velocity.y * 0.9
  { p with velocity := ⟨vx, vy, p.velocity.z⟩ }

/-- Embeds the vertical movement keys of `Player.update` (space up,
left-shift down, undamped). -/
def Player.verticalStep (keys : Keys) (p : Player) : Player :=
  let vz := if keys.space then PLAYER_SPEED
            else if keys.lshift then -PLAYER_SPEED
            else p.velocity.z
  { p with velocity := ⟨p.velocity.x, p.velocity.y, vz⟩ }

/-- Embeds the number-key weapon selection of `Player.update`. -/
def Player.weaponStep (keys : Keys) (p : Player) : Player :=
  if keys.k1 then { p with current_weapon := .laser }
  else if keys.k2 then { p with current_weapon := .plasma }
  else if keys.k3 then { p with current_weapon := .missile }
  else if keys.k4 then { p with current_weapon := .railgun }
  else p

/-- Embeds the invincibility-timer decrement of `Player.update`. -/
def Player.invStep (dt : ℚ) (p : Player) : Player :=
  if 0 < p.respawn_time then { p with respawn_time := p.respawn_time - dt } else p

/-- First-minimum selection of `min(enemies, key=squared distance)`: Python's
`min` keeps the earliest element among equals, so only a strictly smaller
distance replaces the running best. -/
def closestTo (pos : Vec3) : Enemy → List Enemy → Enemy
  | best, [] => best
  | best, e :: rest =>
    if distSq e.position pos < distSq best.position pos then closestTo pos e rest
    else closestTo pos best rest

/-- Embeds `Player.get_aim_direction` for the three aim modes (pointer,
arrow keys, auto-target); any failure falls through to the zero vector. -/
def Player.get_aim_direction (env : Env) (p : Player) (enemies : List Enemy) : Vec3 :=
  if p.aim_mode = 0 then
    let mx := env.mouseX - WINDOW_WIDTH / 2
    let my := env.mouseY - WINDOW_HEIGHT / 2
    let len := env.o.sqrt (mx * mx + my * my)
    if 0 < len then ⟨mx / len, my / len, 0⟩ else ⟨0, 0, 0⟩
  else if p.aim_mode = 1 then
    let dx : ℚ := (if env.keys.left then -1 else 0) + (if env.keys.right then 1 else 0)
    let dy : ℚ := (if env.keys.up then -1 else 0) + (if env.keys.down then 1 else 0)
    let len := env.o.sqrt (dx * dx + dy * dy)
    if 0 < len then ⟨dx / len, dy / len, 0⟩ else ⟨0, 0, 0⟩
  else
    match enemies with
    | [] => ⟨0, 0, 0⟩
    | e :: rest =>
      if p.aim_mode = 2 then
        let c := closestTo p.position e rest
        let dx := c.position.x - p.position.x
        let dy := c.position.y - p.position.y
        let dz := c.position.z - p.position.z
        let len := env.o.sqrt (dx * dx + dy * dy + dz * dz)
        if 0 < len then ⟨dx / len, dy / len, dz / len⟩ else ⟨0, 0, 0⟩
      else ⟨0, 0, 0⟩

/-- The spread fan of `Player.update`: `3` shots unless the weapon is the
railgun (then `1`), shot `i` aimed at the target obtained by rotating the
aim vector in the x-y plane by `(i - (n-1)/2) * spread` (z held constant),
at range 100 from the player. -/
def shotFan (o : Oracle) (pos dir : Vec3) (w : Weapon) : List Projectile :=
  let n : ℕ := if w = .railgun then 1 else 3
  (List.range n).map fun i =>
    let angle := ((i : ℚ) - ((n : ℚ) - 1) / 2) * w.spread
    let c := o.cos angle
    let s := o.sin angle
    let rx := dir.x * c - dir.y * s
    let ry := dir.x * s + dir.y * c
    mkProjectile o pos
      ⟨pos.x + rx * 100, pos.y + ry * 100, pos.z + dir.z * 100⟩ w

/-- Embeds the shooting block of `Player.update`: fire when the trigger is
held (or auto-fire's interval elapsed) and the weapon cooldown elapsed; a
zero aim vector suppresses firing without resetting the cooldown. -/
def Player.shootStep (env : Env) (enemies : List Enemy) (p : Player) : Player :=
  let should_shoot :=
    env.mouseLeft ∨ (p.auto_fire ∧ p.auto_fire_delay < env.now - p.last_auto_fire_time)
  if should_shoot then
    if p.current_weapon.cooldown < env.now - p.last_shot_time then
      let dir := p.get_aim_direction env enemies
      if dir.x ≠ 0 ∨ dir.y ≠ 0 ∨ dir.z ≠ 0 then
        { p with
          projectiles := p.projectiles ++ shotFan env.o p.position dir p.current_weapon
          last_shot_time := env.now
          last_auto_fire_time := if p.auto_fire then env.now else p.last_auto_fire_time }
      else p
    else p
  else p

/-- Embeds the advance-and-prune loop over `self.projectiles` (remove a
projectile once `active` is false after its update). -/
def pruneProjectiles (dt : ℚ) : List Projectile → List Projectile
  | [] => []
  | p :: rest =>
    let p' := p.update dt
    if p'.active then p' :: pruneProjectiles dt rest else pruneProjectiles dt rest

/-- Embeds the power-up timer decrements of `Player.update`; the shield flag
drops exactly when the shield timer reaches zero or below. -/
def Player.powerupTimersStep (dt : ℚ) (p : Player) : Player :=
  let p := if p.pu_speed.isPos then { p with pu_speed := p.pu_speed.sub dt } else p
  let p :=
    if p.pu_shield.isPos then
      let v := p.pu_shield.sub dt
      { p with pu_shield := v,
               shield_active := if v.nonpos then false else p.shield_active }
    else p
  if p.pu_multishot.isPos then { p with pu_multishot := p.pu_multishot.sub dt } else p

/-- Embeds the combo reset of `Player.update`. -/
def Player.comboStep (now : ℚ) (p : Player) : Player :=
  if COMBO_TIMEOUT < now - p.last_kill_time then { p with combo := 0 } else p

/-- Embeds the advance-and-prune loop over a particle list (remove a
particle once its lifetime is nonpositive after its update). -/
def pruneParticles (dt : ℚ) : List Particle → List Particle
  | [] => []
  | q :: rest =>
    let q' := q.update dt
    if q'.lifetime ≤ 0 then pruneParticles dt rest else q' :: pruneParticles dt rest

/-- Embeds `Player.update` as the source's sequence of steps; returns the
updated player and random-draw counter, and is the identity while dead. -/
def Player.update (env : Env) (dt : ℚ) (k : ℕ) (enemies : List Enemy) (p : Player) :
    Player × ℕ :=
  if p.is_dead then (p, k)
  else
    let (p, k) := p.superPowerStep env dt k
    let p := p.cheatStep env.keys
    let p := p.aimStep env.keys
    let p := p.floatStep
    let p := p.integrateStep
    let p := p.moveStep env.keys
    let p := p.verticalStep env.keys
    let p := p.weaponStep env.keys
    let p := p.invStep dt
    let p := p.shootStep env enemies
    let p := { p with projectiles := pruneProjectiles dt p.projectiles }
    let p := p.powerupTimersStep dt
    let p := p.comboStep env.now
    let p := { p with particles := pruneParticles dt p.particles }
    (p, k)

/-- Orbit state of class `CelestialBody` (color, name, texture and the info
table are draw-only). -/
structure Body where
  radius : ℚ
  distance : ℚ
  orbit_period : ℚ
  rotation_period : ℚ
  angle : ℚ
  rotation_angle : ℚ
  orbit_speed : ℚ
  rotation_speed : ℚ
deriving DecidableEq

/-- Embeds `CelestialBody.__init__` (one draw for the initial orbit angle;
the Sun is the `orbit_period = 0` special case). -/
def mkBody (o : Oracle) (k : ℕ) (radius distance op rp : ℚ) : Body × ℕ :=
  ({ radius := radius, distance := distance, orbit_period := op,
     rotation_period := rp, angle := uniform o k 0 360, rotation_angle := 0,
     orbit_speed := if op = 0 then 0 else 360 / op,
     rotation_speed := 360 / rp }, k + 1)

/-- Embeds `CelestialBody.update`. -/
def Body.update (td : ℚ) (b : Body) : Body :=
  let b :=
    if b.orbit_period ≠ 0 then
      let a := b.angle + b.orbit_speed * td
      { b with angle := if 360 ≤ a then a - 360 else a }
    else b
  let ra := b.rotation_angle + b.rotation_speed * td
  { b with rotation_angle := if 360 ≤ ra then ra - 360 else ra }

/-- State of class `SolarSystem`; the process-wide globals `ENEMY_SPAWN_RATE`
and `MAX_ENEMIES` that `update` mutates are carried as the `spawn_rate` and
`max_enemies` fields (there is a single world instance).  Camera fields and
`selected_body` are draw-only and omitted. -/
structure World where
  bodies : List Body
  time_scale : ℚ
  player : Player
  enemies : List Enemy
  boss : Option Enemy
  boss_spawn_score : ℤ
  next_boss_score : ℤ
  game_over : Bool
  powerups : List PowerUp
  wave : ℕ
  wave_timer : ℚ
  enemies_killed : ℕ
  particles : List Particle
  spawn_rate : ℚ
  max_enemies : ℕ
deriving DecidableEq

/-- Embeds `SolarSystem.initialize_bodies` (seven bodies, one angle draw
each). -/
def initBodies (o : Oracle) (k : ℕ) : List Body × ℕ :=
  let (sun, k) := mkBody o k 5 0 0 27
  let (mercury, k) := mkBody o k 0.4 10 88 58.6
  let (venus, k) := mkBody o k 0.9 15 224.7 (-243)
  let (earth, k) := mkBody o k 1 20 365.25 1
  let (mars, k) := mkBody o k 0.5 25 687 1.03
  let (jupiter, k) := mkBody o k 2.5 35 4333 0.41
  let (saturn, k) := mkBody o k 2 45 10759 0.45
  ([sun, mercury, venus, earth, mars, jupiter, saturn], k)

/-- Embeds `SolarSystem.__init__` (initial difficulty 0.01 spawn rate and
10 max enemies come from the module-level globals). -/
def mkWorld (o : Oracle) : World :=
  { bodies := (initBodies o 0).1
    time_scale := 1.0
    player := mkPlayer
    enemies := []
    boss := none
    boss_spawn_score := 200
    next_boss_score := 200
    game_over := false
    powerups := []
    wave := 1
    wave_timer := WAVE_DURATION
    enemies_killed := 0
    particles := []
    spawn_rate := 0.01
    max_enemies := 10 }

/-- Embeds `SolarSystem.restart_game`. -/
def World.restart_game (w : World) : World :=
  { w with player := w.player.reset, enemies := [], boss := none,
           next_boss_score := w.boss_spawn_score, game_over := false,
           time_scale := 1.0 }

/-- Embeds the wave-system block of `SolarSystem.update`: tick the wave
timer and, on expiry, advance the wave, reset the timer, and raise the
spawn rate and enemy cap toward their ceilings 0.05 and 20. -/
def waveStep (dt : ℚ) (w : World) : World :=
  let t := w.wave_timer - dt
  if t ≤ 0 then
    { w with wave := w.wave + 1, wave_timer := WAVE_DURATION,
             spawn_rate := min 0.05 (w.spawn_rate + 0.005),
             max_enemies := min 20 (w.max_enemies + 2) }
  else { w with wave_timer := t }

/-- The 20-particle burst of `SolarSystem.create_explosion`; each particle
consumes three draws (angle, speed, z multiplier). -/
def explosionBurst (o : Oracle) (pos : Vec3) (k : ℕ) : List Particle × ℕ :=
  ((List.range 20).map fun j =>
    let ang := uniform o (k + 3 * j) 0 360
    let sp := uniform o (k + 3 * j + 1) 0.5 2.0
    let zr := uniform o (k + 3 * j + 2) (-1) 1
    { position := pos
      velocity := ⟨o.cos (radians o ang) * sp, o.sin (radians o ang) * sp, zr * sp⟩
      lifetime := 0.5
      alpha := 1.0 }, k + 60)

/-- Effect of picking up one power-up (`SolarSystem.update`, power-up loop
body). -/
def applyPowerUp (pu : PowerUp) (p : Player) : Player :=
  match pu.type with
  | .health => { p with lives := min 10 (p.lives + 1) }
  | .speed => { p with pu_speed := .fin POWERUP_DURATION }
  | .shield => { p with pu_shield := .fin POWERUP_DURATION, shield_active := true }
  | .multishot => { p with pu_multishot := .fin POWERUP_DURATION }

/-- Embeds the power-up pickup loop of `SolarSystem.update`: a power-up
within `radius + 0.5` of the player grants its effect, is removed, and
becomes an explosion burst appended to the world's particles. -/
def pickupLoop (o : Oracle) (k : ℕ) (player : Player) (parts : List Particle) :
    List PowerUp → List PowerUp × Player × List Particle × ℕ
  | [] => ([], player, parts, k)
  | pu :: rest =>
    if sqrtLt (distSq pu.position player.position) (pu.radius + 0.5) then
      let player := applyPowerUp pu player
      let (burst, k') := explosionBurst o pu.position k
      pickupLoop o k' player (parts ++ burst) rest
    else
      let (rest', player', parts', k') := pickupLoop o k player parts rest
      (pu :: rest', player', parts', k')

/-- Squared length of the cross product of the target's offset from the
projectile with the projectile's direction - the square of the
`perpendicular_distance` of the collision block (the direction is unit
length for every fired projectile, making this the squared perpendicular
distance from the target's center to the projectile's ray). -/
def perpSq (p : Projectile) (targetPos : Vec3) : ℚ :=
  let dx := targetPos.x - p.position.x
  let dy := targetPos.y - p.position.y
  let dz := targetPos.z - p.position.z
  let cx := dy * p.direction.z - dz * p.direction.y
  let cy := dz * p.direction.x - dx * p.direction.z
  let cz := dx * p.direction.y - dy * p.direction.x
  cx * cx + cy * cy + cz * cz

/-- The `dot_product` of the collision block: the scalar projection of the
target's offset onto the projectile's (unit) direction. -/
def offDot (p : Projectile) (targetPos : Vec3) : ℚ :=
  (targetPos.x - p.position.x) * p.direction.x +
    (targetPos.y - p.position.y) * p.direction.y +
    (targetPos.z - p.position.z) * p.direction.z

/-- The capsule-style ray test of the projectile collision block: the
perpendicular distance from the target's center to the projectile's ray is
below the radii sum (embedded as a squared comparison, see `sqrtLt`) and the
scalar projection of the offset onto the direction is strictly between `0`
and the projectile's length. -/
def rayHit (p : Projectile) (targetPos : Vec3) (targetRadius : ℚ) : Bool :=
  sqrtLt (perpSq p targetPos) (targetRadius + p.radius) &&
    decide (0 < offDot p targetPos) && decide (offDot p targetPos < p.length)

/-- The full per-target hit condition of the collision block: the target's
hit cooldown has elapsed and the ray test passes. -/
def hitCond (p : Projectile) (e : Enemy) : Prop :=
  e.hit_cooldown ≤ 0 ∧ rayHit p e.position e.radius = true

instance (p : Projectile) (e : Enemy) : Decidable (hitCond p e) :=
  inferInstanceAs (Decidable (_ ∧ _))

/-- Embeds the inner enemy loop of the projectile collision block: scan the
enemies in order; the first enemy with elapsed hit cooldown passing the ray
test takes the weapon's damage, gets a 0.2 s hit cooldown (and is removed
with 100 score if dead), the projectile is deactivated and the scan stops. -/
def projEnemyLoop (p : Projectile) (score : ℤ) :
    List Enemy → List Enemy × Projectile × ℤ
  | [] => ([], p, score)
  | e :: rest =>
    if hitCond p e then
      let e' := { e with health := e.health - p.weapon.damage, hit_cooldown := 0.2 }
      if e'.health ≤ 0 then (rest, { p with active := false }, score + SCORE_PER_HIT)
      else (e' :: rest, { p with active := false }, score)
    else
      let (rest', p', score') := projEnemyLoop p score rest
      (e :: rest', p', score')

/-- Embeds the boss part of the projectile collision block: tested for every
projectile after its enemy scan (with no check that the projectile is still
active), damaging the boss and deactivating the projectile on a hit; a dead
boss awards the 1000 bonus and clears the boss slot. -/
def projBossCheck (p : Projectile) (boss : Option Enemy) (score : ℤ) :
    Option Enemy × Projectile × ℤ :=
  match boss with
  | none => (none, p, score)
  | some b =>
    if hitCond p b then
      let b' := { b with health := b.health - p.weapon.damage, hit_cooldown := 0.2 }
      if b'.health ≤ 0 then (none, { p with active := false }, score + 1000)
      else (some b', { p with active := false }, score)
    else (some b, p, score)

/-- Embeds the outer projectile loop of the collision block, threading the
enemy list, boss slot and score through every projectile in order. -/
def projLoop (enemies : List Enemy) (boss : Option Enemy) (score : ℤ) :
    List Projectile → List Projectile × List Enemy × Option Enemy × ℤ
  | [] => ([], enemies, boss, score)
  | p :: ps =>
    let (enemies', p', score') := projEnemyLoop p score enemies
    let (boss', p'', score'') := projBossCheck p' boss score'
    let (ps', enemies'', boss'', score3) := projLoop enemies' boss' score'' ps
    (p'' :: ps', enemies'', boss'', score3)

/-- Embeds the bomb-vs-enemies area pass: every enemy within the explosion
radius of a detonated bomb takes 2 damage (removed with 100 score if dead);
no break, and the bomb itself is not consumed. -/
def bombEnemyLoop (b : Bomb) (score : ℤ) : List Enemy → List Enemy × ℤ
  | [] => ([], score)
  | e :: rest =>
    if sqrtLt (distSq b.position e.position) b.explosion_radius then
      let e' := { e with health := e.health - 2 }
      let (rest', score') := bombEnemyLoop b (if e'.health ≤ 0 then score + SCORE_PER_HIT else score) rest
      if e'.health ≤ 0 then (rest', score') else (e' :: rest', score')
    else
      let (rest', score') := bombEnemyLoop b score rest
      (e :: rest', score')

/-- Embeds the bomb-vs-boss check (4 damage inside the radius; a dead boss
awards 1000 and clears the slot). -/
def bombBossCheck (b : Bomb) (boss : Option Enemy) (score : ℤ) : Option Enemy × ℤ :=
  match boss with
  | none => (none, score)
  | some bo =>
    if sqrtLt (distSq b.position bo.position) b.explosion_radius then
      let bo' := { bo with health := bo.health - 4 }
      if bo'.health ≤ 0 then (none, score + 1000) else (some bo', score)
    else (some bo, score)

/-- Embeds the bomb collision loop of `SolarSystem.update` (only detonated
bombs deal damage; the bomb list itself is not modified). -/
def bombLoop (enemies : List Enemy) (boss : Option Enemy) (score : ℤ) :
    List Bomb → List Enemy × Option Enemy × ℤ
  | [] => (enemies, boss, score)
  | b :: bs =>
    if b.exploded then
      let (enemies', score') := bombEnemyLoop b score enemies
      let (boss', score'') := bombBossCheck b boss score'
      bombLoop enemies' boss' score'' bs
    else bombLoop enemies boss score bs

/-- Embeds the enemy-spawn block of `SolarSystem.update`: when below the cap,
one Bernoulli draw against the spawn rate gates a new enemy on a ring of
radius 20-40 with random altitude (the `and` short-circuits, so no draw is
consumed at the cap). -/
def enemySpawnStep (o : Oracle) (k : ℕ) (w : World) : World × ℕ :=
  if w.enemies.length < w.max_enemies then
    if o.rnd k < w.spawn_rate then
      let angle := uniform o (k + 1) 0 360
      let distance := uniform o (k + 2) 20 40
      let x := o.cos (radians o angle) * distance
      let y := o.sin (radians o angle) * distance
      let z := uniform o (k + 3) 5 25
      let (e, k') := mkEnemy o (k + 4) ⟨x, y, z⟩
      ({ w with enemies := w.enemies ++ [e] }, k')
    else (w, k + 1)
  else (w, k)

/-- Embeds the boss-spawn block of `SolarSystem.update`: once the score
reaches the next boss threshold and no boss is alive, spawn a boss at a
random angle, planar offset 45 from the player at height 20, and raise the
threshold by the base `boss_spawn_score`. -/
def bossSpawnStep (o : Oracle) (k : ℕ) (w : World) : World × ℕ :=
  if w.next_boss_score ≤ w.player.score ∧ w.boss = none then
    let angle := uniform o k 0 360
    let x := w.player.position.x + o.cos (radians o angle) * 45
    let y := w.player.position.y + o.sin (radians o angle) * 45
    let (b, k') := mkBoss o (k + 1) ⟨x, y, 20⟩
    ({ w with boss := some b, next_boss_score := w.next_boss_score + w.boss_spawn_score }, k')
  else (w, k)

/-- Embeds the enemy update-and-contact loop of `SolarSystem.update`: each
enemy moves toward the player, then (if the player is alive and not
invincible) a sphere contact within `radius + 0.5` damages the player
(unless cheating), removes the enemy, and raises `game_over` on death.
The player is threaded so that later enemies see the teleported position. -/
def enemyContactLoop (o : Oracle) (dt : ℚ) (player : Player) (over : Bool) :
    List Enemy → List Enemy × Player × Bool
  | [] => ([], player, over)
  | e :: rest =>
    let e' := Enemy.update o e dt player.position
    if ¬player.is_dead ∧ player.respawn_time ≤ 0 ∧
        sqrtLt (distSq e'.position player.position) (e'.radius + 0.5) then
      let player' := if ¬player.cheat_mode then player.take_damage else player
      let over' := if player'.is_dead then true else over
      let (rest', player'', over'') := enemyContactLoop o dt player' over' rest
      (rest', player'', over'')
    else
      let (rest', player', over') := enemyContactLoop o dt player over rest
      (e' :: rest', player', over')

/-- Embeds the boss update-and-contact block of `SolarSystem.update` (the
boss moves, and contact damages the player without removing the boss; the
contact test is not gated on the player being alive or invincible - only
`take_damage` itself checks the invincibility window). -/
def bossContactStep (o : Oracle) (dt : ℚ) (w : World) : World :=
  match w.boss with
  | none => w
  | some b =>
    let b' := Enemy.update o b dt w.player.position
    if sqrtLt (distSq b'.position w.player.position) (b'.radius + 0.5) then
      let player' := if ¬w.player.cheat_mode then w.player.take_damage else w.player
      let over' := if player'.is_dead then true else w.game_over
      { w with boss := some b', player := player', game_over := over' }
    else { w with boss := some b' }

/-- Embeds `SolarSystem.spawn_powerup`: a 10% draw gates one power-up at a
random planar offset 10-30 from the player with random altitude. -/
def spawnPowerupStep (o : Oracle) (k : ℕ) (w : World) : World × ℕ :=
  if o.rnd k < 0.1 then
    let angle := uniform o (k + 1) 0 360
    let distance := uniform o (k + 2) 10 30
    let x := w.player.position.x + o.cos (radians o angle) * distance
    let y := w.player.position.y + o.sin (radians o angle) * distance
    let z := uniform o (k + 3) 5 25
    let (pu, k') := mkPowerUp o (k + 4) ⟨x, y, z⟩
    ({ w with powerups := w.powerups ++ [pu] }, k')
  else (w, k + 1)

/-- Embeds the super-power enemy sweep of `SolarSystem.update`: every live
enemy is removed with 100 score and an explosion burst. -/
def superEnemySweep (o : Oracle) (k : ℕ) (score : ℤ) (parts : List Particle) :
    List Enemy → ℤ × List Particle × ℕ
  | [] => (score, parts, k)
  | e :: rest =>
    let (burst, k') := explosionBurst o e.position k
    superEnemySweep o k' (score + SCORE_PER_HIT) (parts ++ burst) rest

/-- Embeds the super-power block of `SolarSystem.update`: while active,
destroy every enemy (each worth 100 score plus a burst) and deal 5 damage to
the boss, with the 1000 bonus and slot clearing when it dies. -/
def superPowerWorldStep (o : Oracle) (k : ℕ) (w : World) : World × ℕ :=
  if w.player.super_power_active then
    let (score, parts, k') :=
      superEnemySweep o k w.player.score w.particles w.enemies
    let w := { w with enemies := [],
                      player := { w.player with score := score },
                      particles := parts }
    match w.boss with
    | none => (w, k')
    | some b =>
      let b' := { b with health := b.health - 5 }
      let (burst, k'') := explosionBurst o b.position k'
      let w := { w with particles := w.particles ++ burst }
      if b'.health ≤ 0 then
        ({ w with player := { w.player with score := w.player.score + 1000 },
                  boss := none }, k'')
      else ({ w with boss := some b' }, k'')
  else (w, k)

/-- The part of `SolarSystem.update` before the restart check: wave system,
power-up pickups, ambient particles, celestial bodies and the player update
(lines 827-871 of the source). -/
def updateFront (env : Env) (dt : ℚ) (w : World) : World × ℕ :=
  let w := waveStep dt w
  let (pus, player, parts, k) := pickupLoop env.o 0 w.player w.particles w.powerups
  let w := { w with powerups := pus, player := player, particles := parts }
  let w := { w with particles := pruneParticles dt w.particles }
  let w := { w with bodies := w.bodies.map (Body.update (dt * w.time_scale)) }
  let (player', k') :=
    w.player.update env dt k (w.enemies ++ w.boss.toList)
  ({ w with player := player' }, k')

/-- The part of `SolarSystem.update` after the restart check: spawns,
contacts, projectile/bomb collisions and the super-power sweep (lines
878-1009 of the source). -/
def updateBack (env : Env) (dt : ℚ) (k : ℕ) (w : World) : World :=
  let (w, k) := enemySpawnStep env.o k w
  let (w, k) := bossSpawnStep env.o k w
  let (es, player, over) := enemyContactLoop env.o dt w.player w.game_over w.enemies
  let w := { w with enemies := es, player := player, game_over := over }
  let w := bossContactStep env.o dt w
  let (ps, es', boss', score') :=
    projLoop w.enemies w.boss w.player.score w.player.projectiles
  let w := { w with enemies := es', boss := boss',
                    player := { w.player with projectiles := ps, score := score' } }
  let (es'', boss'', score'') := bombLoop w.enemies w.boss w.player.score w.player.bombs
  let w := { w with enemies := es'', boss := boss'',
                    player := { w.player with score := score'' } }
  let (w, k) :=
    if w.enemies.length < w.max_enemies then
      if env.o.rnd k < w.spawn_rate then spawnPowerupStep env.o (k + 1) w
      else (w, k + 1)
    else (w, k)
  (superPowerWorldStep env.o k w).1

/-- Embeds `SolarSystem.update`: an immediate return while `game_over` is
set; otherwise the front phases, then the R-key restart check, then the
back phases.  One oracle-draw counter is threaded through the frame. -/
def SolarSystem.update (env : Env) (dt : ℚ) (w : World) : World :=
  if w.game_over then w
  else
    let (w', k) := updateFront env dt w
    if env.keys.r ∧ w'.game_over then w'.restart_game
    else updateBack env dt k w'

/-- The hit condition as the claim words it: perpendicular distance below
the radii sum AND the projection within the CLOSED interval
`[0, projectile_length]`.  Written from the spec's words (not the source)
to compare against the source's `rayHit`. -/
def specRayHit (p : Projectile) (c : Vec3) (r : ℚ) : Prop :=
  (0 < r + p.radius ∧ perpSq p c < (r + p.radius) ^ 2) ∧
    0 ≤ offDot p c ∧ offDot p c ≤ p.length

/-- A projectile along the positive x axis, as fired with the laser. -/
def pC1 : Projectile :=
  { position := ⟨0, 0, 0⟩, direction := ⟨1, 0, 0⟩, weapon := .laser,
    speed := 2.25, lifetime := 1, active := true, radius := 2, length := 5 }

/-- An enemy sitting at projection 0 on that projectile's ray (offset
perpendicular to the direction), with elapsed hit cooldown. -/
def eC1 : Enemy :=
  { position := ⟨0, 1/2, 0⟩, radius := 1, speed := 0.2, angle := 0,
    active := true, health := 2, hit_cooldown := 0, type := .normal }

/-- A laser projectile along the positive x axis. -/
def pC2 : Projectile :=
  { position := ⟨0, 0, 0⟩, direction := ⟨1, 0, 0⟩, weapon := .laser,
    speed := 2.25, lifetime := 1, active := true, radius := 2, length := 5 }

/-- An enemy on the ray at projection 1 (inside the capsule). -/
def eC2 : Enemy :=
  { position := ⟨1, 0, 0⟩, radius := 1, speed := 0.2, angle := 0,
    active := true, health := 2, hit_cooldown := 0, type := .normal }

/-- The boss on the same ray at projection 3 (inside the capsule). -/
def bC2 : Enemy :=
  { position := ⟨3, 0, 0⟩, radius := 3, speed := 0.12, angle := 0,
    active := true, health := 10, hit_cooldown := 0, type := .normal }

/-- A key snapshot with only F1 held, for the cheat toggle. -/
def keysF1 : Keys :=
  { f := false, f1 := true, f2 := false, a := false, d := false, w := false,
    s := false, space := false, lshift := false, k1 := false, k2 := false,
    k3 := false, k4 := false, r := false, left := false, right := false,
    up := false, down := false }

/-- Oracle whose cosine is constantly 1 and sine constantly 0 (a valid
point on the unit circle), with all random draws 0. -/
def oC5 : Oracle :=
  { sqrt := fun _ => 0, cos := fun _ => 1, sin := fun _ => 0, piQ := 0,
    rnd := fun _ => 0, rndN := fun _ => 0 }

/-- A world whose player sits at the origin (altitude 0) with exactly the
boss-threshold score and no live boss. -/
def wC5 : World :=
  { mkWorld oC5 with
      player := { mkPlayer with score := 200, position := ⟨0, 0, 0⟩ } }

/-- Rotation of a vector in the x-y plane by angle θ (cosine/sine through
the oracle), z held constant - the rotation the firing code applies to the
aim vector. -/
def rotXY (o : Oracle) (θ : ℚ) (v : Vec3) : Vec3 :=
  ⟨v.x * o.cos θ - v.y * o.sin θ, v.x * o.sin θ + v.y * o.cos θ, v.z⟩

/-- A key snapshot with nothing held. -/
def keysNone : Keys :=
  { f := false, f1 := false, f2 := false, a := false, d := false, w := false,
    s := false, space := false, lshift := false, k1 := false, k2 := false,
    k3 := false, k4 := false, r := false, left := false, right := false,
    up := false, down := false }

/-- Oracle on the rational point (3/5, 4/5) of the unit circle whose square
root is exact at 10000. -/
def oC6 : Oracle :=
  { sqrt := fun x => if x = 10000 then 100 else 0,
    cos := fun _ => 3 / 5, sin := fun _ => 4 / 5, piQ := 0,
    rnd := fun _ => 0, rndN := fun _ => 0 }

/-- Frame input: pointer 100 px right of center, trigger held, at second
100. -/
def envC6 : Env :=
  { o := oC6, keys := keysNone, mouseX := 700, mouseY := 400,
    mouseLeft := true, now := 100 }

/-- A fresh bomb (travel lifetime 2, zero direction). -/
def bombC7 : Bomb :=
  mkBomb { sqrt := fun _ => 0, cos := fun _ => 0, sin := fun _ => 0,
           piQ := 0, rnd := fun _ => 0, rndN := fun _ => 0 }
    ⟨0, 0, 0⟩ ⟨0, 0, 0⟩

/-- Worlds reachable from the initial world by frames of `update`. -/
inductive Reachable : World → Prop
  | init (o : Oracle) : Reachable (mkWorld o)
  | step (env : Env) (dt : ℚ) (w : World) : Reachable w →
      Reachable (SolarSystem.update env dt w)

/-!
## Theorems

Shared helper lemmas come first, then one theorem per claim (with its
witness or counterexample where required).
-/


/-- Complete characterization of the enemy scan for one projectile: either
no enemy satisfies the hit condition and the scan changes nothing, or the
list splits around the first enemy satisfying it, which takes the weapon's
damage and a 0.2 s hit cooldown (and is removed, scoring 100, if that kills
it), the projectile is deactivated, and the remaining enemies are untouched. -/
theorem projEnemyLoop_spec (p : Projectile) (score : ℤ) (es : List Enemy) :
    (projEnemyLoop p score es = (es, p, score) ∧ ∀ e ∈ es, ¬hitCond p e) ∨
    ∃ as e bs, es = as ++ e :: bs ∧ (∀ a ∈ as, ¬hitCond p a) ∧ hitCond p e ∧
      projEnemyLoop p score es =
        (as ++ (if e.health - p.weapon.damage ≤ 0 then bs
                else { e with health := e.health - p.weapon.damage,
                              hit_cooldown := 0.2 } :: bs),
         { p with active := false },
         if e.health - p.weapon.damage ≤ 0 then score + SCORE_PER_HIT
         else score) := by
  induction es with
  | nil => exact Or.inl ⟨rfl, by simp⟩
  | cons e rest ih =>
    by_cases h : hitCond p e
    · refine Or.inr ⟨[], e, rest, rfl, by simp, h, ?_⟩
      simp only [projEnemyLoop, if_pos h, List.nil_append]
      by_cases hd : e.health - p.weapon.damage ≤ 0 <;> simp [hd]
    · rcases ih with ⟨heq, hall⟩ | ⟨as, e', bs, hsplit, has, he', heq⟩
      · refine Or.inl ⟨?_, ?_⟩
        · simp only [projEnemyLoop, if_neg h, heq]
        · intro x hx
          rcases List.mem_cons.mp hx with rfl | hx
          · exact h
          · exact hall x hx
      · refine Or.inr ⟨e :: as, e', bs, by rw [hsplit, List.cons_append], ?_, he', ?_⟩
        · intro a ha
          rcases List.mem_cons.mp ha with rfl | ha
          · exact h
          · exact has a ha
        · simp only [projEnemyLoop, if_neg h, heq, List.cons_append]

/-- Claim C1, counterexample: the claim demands a hit whenever the
projection lies in the closed interval `[0, projectile_length]`, but at
projection exactly 0 (enemy center abreast of the projectile's origin,
well inside the radii sum) the engine registers no hit: the collision scan
leaves the enemy, the projectile and the score untouched. -/
theorem c1_counterexample :
    specRayHit pC1 eC1.position eC1.radius ∧ eC1.hit_cooldown ≤ 0 ∧
      projEnemyLoop pC1 0 [eC1] = ([eC1], pC1, 0) := by
  refine ⟨?_, by norm_num [eC1], ?_⟩
  · norm_num [specRayHit, perpSq, offDot, pC1, eC1]
  · have h : ¬hitCond pC1 eC1 := by
      norm_num [hitCond, rayHit, sqrtLt, offDot, pC1, eC1]
    simp [projEnemyLoop, h]

/-- Claim C1 (amended): the engine registers a hit on a target with elapsed
hit cooldown iff the perpendicular distance from the target's center to the
projectile's ray is below `target_radius + projectile_radius` AND the
projection of the target's offset onto the direction lies STRICTLY inside
the open interval `(0, projectile_length)`; on the first such enemy the
weapon's damage is subtracted, a 0.2 s hit cooldown is set, the projectile
is deactivated, and no further enemy is hit by it that frame (the boss is
tested independently). -/
theorem c1_hit_characterization (p : Projectile) (score : ℤ) :
    (∀ (c : Vec3) (r : ℚ),
      rayHit p c r = true ↔
        ((0 < r + p.radius ∧ perpSq p c < (r + p.radius) ^ 2) ∧
          0 < offDot p c ∧ offDot p c < p.length)) ∧
    (∀ es, (projEnemyLoop p score es = (es, p, score) ∧ ∀ e ∈ es, ¬hitCond p e) ∨
      ∃ as e bs, es = as ++ e :: bs ∧ (∀ a ∈ as, ¬hitCond p a) ∧ hitCond p e ∧
        projEnemyLoop p score es =
          (as ++ (if e.health - p.weapon.damage ≤ 0 then bs
                  else { e with health := e.health - p.weapon.damage,
                                hit_cooldown := 0.2 } :: bs),
           { p with active := false },
           if e.health - p.weapon.damage ≤ 0 then score + SCORE_PER_HIT
           else score)) := by
  constructor
  · intro c r
    simp [rayHit, sqrtLt, and_assoc]
  · exact projEnemyLoop_spec p score

/-- Claim C1, witness: the characterization applied at a concrete target
strictly inside the capsule certifies a registered hit. -/
theorem c1_witness : rayHit pC1 ⟨1, 0, 0⟩ 1 = true :=
  ((c1_hit_characterization pC1 0).1 ⟨1, 0, 0⟩ 1).mpr
    (by norm_num [perpSq, offDot, pC1])

/-- Claim C2, counterexample: in a single collision pass one projectile
damages an enemy (health 2 to 1) AND the boss (health 10 to 9) - after
consuming the projectile on the enemy, the engine still tests the boss
without checking that the projectile is still active, so "never both an
enemy and the boss in the same frame" is false. -/
theorem c2_counterexample :
    projLoop [eC2] (some bC2) 0 [pC2] =
      ([{ pC2 with active := false }],
       [{ eC2 with health := 1, hit_cooldown := 0.2 }],
       some { bC2 with health := 9, hit_cooldown := 0.2 },
       0) ∧
    ({ eC2 with health := 1, hit_cooldown := 0.2 } : Enemy) ≠ eC2 ∧
    some ({ bC2 with health := 9, hit_cooldown := 0.2 } : Enemy) ≠ some bC2 := by
  refine ⟨?_, by simp [eC2], by simp [bC2]⟩
  norm_num [projLoop, projEnemyLoop, projBossCheck, hitCond, rayHit, sqrtLt,
    perpSq, offDot, pC2, eC2, bC2, Weapon.damage, SCORE_PER_HIT]

/-- Claim C2 (amended): per frame a projectile hits at most one enemy (the
first match in iteration order; the scan stops there), and the boss test
runs independently afterwards, so the same projectile may hit one enemy and
additionally the boss in the same frame - but never two enemies. -/
theorem c2_at_most_one_enemy :
    (∀ (p : Projectile) (score : ℤ) (es : List Enemy),
      projEnemyLoop p score es = (es, p, score) ∨
      ∃ as e bs, es = as ++ e :: bs ∧
        projEnemyLoop p score es =
          (as ++ (if e.health - p.weapon.damage ≤ 0 then bs
                  else { e with health := e.health - p.weapon.damage,
                                hit_cooldown := 0.2 } :: bs),
           { p with active := false },
           if e.health - p.weapon.damage ≤ 0 then score + SCORE_PER_HIT
           else score)) ∧
    ∃ (p : Projectile) (e b : Enemy),
      (projLoop [e] (some b) 0 [p]).2.1 ≠ [e] ∧
      (projLoop [e] (some b) 0 [p]).2.2.1 ≠ some b := by
  constructor
  · intro p score es
    rcases projEnemyLoop_spec p score es with ⟨h, _⟩ | ⟨as, e, bs, h1, _, _, h2⟩
    · exact Or.inl h
    · exact Or.inr ⟨as, e, bs, h1, h2⟩
  · refine ⟨{ position := ⟨0, 0, 0⟩, direction := ⟨1, 0, 0⟩, weapon := .plasma,
              speed := 1.5, lifetime := 1, active := true, radius := 2,
              length := 5 },
            { position := ⟨2, 0, 0⟩, radius := 1, speed := 0.2, angle := 0,
              active := true, health := 2, hit_cooldown := 0, type := .normal },
            { position := ⟨4, 0, 0⟩, radius := 3, speed := 0.12, angle := 0,
              active := true, health := 10, hit_cooldown := 0, type := .normal },
            ?_, ?_⟩ <;>
    · have h1 : hitCond
          { position := ⟨0, 0, 0⟩, direction := ⟨1, 0, 0⟩, weapon := .plasma,
            speed := 1.5, lifetime := 1, active := true, radius := 2, length := 5 }
          { position := ⟨2, 0, 0⟩, radius := 1, speed := 0.2, angle := 0,
            active := true, health := 2, hit_cooldown := 0, type := .normal } := by
        norm_num [hitCond, rayHit, sqrtLt, perpSq, offDot]
      have h2 : hitCond
          { position := ⟨0, 0, 0⟩, direction := ⟨1, 0, 0⟩, weapon := .plasma,
            speed := 1.5, lifetime := 1, active := false, radius := 2, length := 5 }
          { position := ⟨4, 0, 0⟩, radius := 3, speed := 0.12, angle := 0,
            active := true, health := 10, hit_cooldown := 0, type := .normal } := by
        norm_num [hitCond, rayHit, sqrtLt, perpSq, offDot]
      simp [projLoop, projEnemyLoop, projBossCheck, h1, h2, Weapon.damage]

/-- Claim C3: `take_damage` is the identity on the whole player state while
the invincibility window is active or cheat mode is on; otherwise it
decrements lives, then either sets the dead flag (when no lives remain) or
starts the invincibility window and teleports the player to the spawn
point; and a second call during the freshly opened window is a no-op. -/
theorem c3_take_damage_contract (p : Player) :
    ((0 < p.respawn_time ∨ p.cheat_mode = true) → p.take_damage = p) ∧
    (p.respawn_time ≤ 0 → p.cheat_mode = false →
      (p.take_damage.lives = p.lives - 1 ∧
       (p.lives - 1 ≤ 0 →
         p.take_damage = { p with lives := p.lives - 1, is_dead := true }) ∧
       (0 < p.lives - 1 →
         p.take_damage = { p with lives := p.lives - 1,
                                  respawn_time := p.invincible_time,
                                  position := ⟨0, 0, 20⟩ }))) ∧
    (p.respawn_time ≤ 0 → p.cheat_mode = false → 0 < p.lives - 1 →
      0 < p.invincible_time → p.take_damage.take_damage = p.take_damage) := by
  refine ⟨?_, ?_, ?_⟩
  · intro h
    rcases h with h | h
    · rw [Player.take_damage, if_neg]
      intro hc
      exact absurd hc.1 (not_le.mpr h)
    · rw [Player.take_damage, if_neg]
      intro hc
      exact hc.2 (by simp [h])
  · intro h1 h2
    have hc : p.respawn_time ≤ 0 ∧ ¬p.cheat_mode = true := ⟨h1, by simp [h2]⟩
    refine ⟨?_, ?_, ?_⟩
    · rw [Player.take_damage, if_pos hc]
      by_cases hd : p.lives - 1 ≤ 0 <;> simp [hd]
    · intro hd
      rw [Player.take_damage, if_pos hc]
      simp [hd]
    · intro hd
      rw [Player.take_damage, if_pos hc]
      simp [not_le.mpr hd, not_le.mpr (by linarith : (0 : ℤ) < p.lives)]
  · intro h1 h2 h3 h4
    have hc : p.respawn_time ≤ 0 ∧ ¬p.cheat_mode = true := ⟨h1, by simp [h2]⟩
    have hfirst : p.take_damage = { p with lives := p.lives - 1,
                                           respawn_time := p.invincible_time,
                                           position := ⟨0, 0, 20⟩ } := by
      rw [Player.take_damage, if_pos hc]
      simp [not_le.mpr h3, not_le.mpr (by linarith : (0 : ℤ) < p.lives)]
    rw [hfirst, Player.take_damage, if_neg]
    intro hcon
    exact absurd hcon.1 (by simpa using not_le.mpr h4)

/-- Claim C3, witness: from the initial player (3 lives, no window, no
cheat) one hit leaves 2 lives, and an immediate second hit changes nothing
further. -/
theorem c3_witness :
    mkPlayer.take_damage.lives = 2 ∧
    mkPlayer.take_damage.take_damage = mkPlayer.take_damage := by
  have h := c3_take_damage_contract mkPlayer
  constructor
  · have := (h.2.1 (by norm_num [mkPlayer]) (by norm_num [mkPlayer])).1
    rw [this]
    norm_num [mkPlayer]
  · exact h.2.2 (by norm_num [mkPlayer]) (by norm_num [mkPlayer])
      (by norm_num [mkPlayer]) (by norm_num [mkPlayer])

/-- Claim C4, counterexample: starting from a player with 5 lives (cheat
off), toggling cheat mode twice leaves 3 lives, not the pre-toggle 5 -
toggling off resets the affected fields to defaults instead of restoring
them. -/
theorem c4_counterexample :
    ((({ mkPlayer with lives := 5 } : Player).cheatStep keysF1).cheatStep
        keysF1).lives = 3 ∧
    ({ mkPlayer with lives := 5 } : Player).lives = 5 := by
  constructor
  · norm_num [Player.cheatStep, keysF1, mkPlayer]
  · norm_num [mkPlayer]

/-- Claim C4 (amended): from any non-cheat state, applying the cheat toggle
twice resets the affected fields to their defaults - 3 lives, shield off,
auto-fire off, all three power-up durations zero, cheat mode off - rather
than to their pre-toggle values (which are recovered only when they already
were these defaults). -/
theorem c4_double_toggle_defaults (p : Player) (keys : Keys)
    (hk : keys.f1 = true) (hc : p.cheat_mode = false) :
    (p.cheatStep keys).cheatStep keys =
      { p with cheat_mode := false, lives := 3, auto_fire := false,
               shield_active := false, pu_shield := .fin 0, pu_speed := .fin 0,
               pu_multishot := .fin 0 } := by
  simp [Player.cheatStep, hk, hc]

/-- Claim C4, witness: the amended statement applied to the 5-lives
non-cheat player. -/
theorem c4_witness :
    (({ mkPlayer with lives := 5 } : Player).cheatStep keysF1).cheatStep keysF1 =
      { ({ mkPlayer with lives := 5 } : Player) with
          cheat_mode := false, lives := 3, auto_fire := false,
          shield_active := false, pu_shield := .fin 0, pu_speed := .fin 0,
          pu_multishot := .fin 0 } :=
  c4_double_toggle_defaults { mkPlayer with lives := 5 } keysF1 rfl rfl

/-- The boss constructor ignores the random kind draw for position and
always overrides health to 10. -/
theorem mkBoss_fields (o : Oracle) (k : ℕ) (pos : Vec3) :
    (mkBoss o k pos).1.position = pos ∧ (mkBoss o k pos).1.health = 10 := by
  unfold mkBoss mkEnemy
  rcases o.rndN (k + 2) % 3 with _ | _ | n <;> simp

/-- Claim C5, counterexample: the spawned boss sits at squared 3D distance
2425 from the player (planar offset 45 but fixed altitude 20 over a player
at altitude 0), not at distance 45 as claimed (45² = 2025 ≠ 2425). -/
theorem c5_counterexample :
    ((bossSpawnStep oC5 0 wC5).1.boss.map fun b =>
      distSq b.position wC5.player.position) = some 2425 ∧
    (2425 : ℚ) ≠ 45 ^ 2 := by
  constructor
  · have hcond : wC5.next_boss_score ≤ wC5.player.score ∧ wC5.boss = none := by
      constructor
      · norm_num [wC5, mkWorld, mkPlayer]
      · rfl
    rw [bossSpawnStep, if_pos hcond]
    have hpos := (mkBoss_fields oC5 (0 + 1)
      ⟨wC5.player.position.x + oC5.cos (radians oC5 (uniform oC5 0 0 360)) * 45,
       wC5.player.position.y + oC5.sin (radians oC5 (uniform oC5 0 0 360)) * 45,
       20⟩).1
    simp only [Option.map_some']
    rw [hpos]
    norm_num [distSq, oC5, wC5, mkWorld, mkPlayer, uniform, radians]
  · norm_num

/-- Claim C5 (amended): when the score has reached the boss threshold and
no boss is alive, the spawn step produces exactly one boss with health 10
at HORIZONTAL (x-y) distance 45 from the player at fixed altitude 20, and
raises the threshold by the base boss-spawn score; and a projectile hit
that brings the boss to 0 or below adds the 1000 bonus to the score and
clears the boss slot. -/
theorem c5_boss_spawn (o : Oracle) (k : ℕ) (w : World)
    (hs : w.next_boss_score ≤ w.player.score) (hb : w.boss = none)
    (htrig : (o.cos (radians o (uniform o k 0 360))) ^ 2 +
             (o.sin (radians o (uniform o k 0 360))) ^ 2 = 1) :
    (∃ b, (bossSpawnStep o k w).1.boss = some b ∧ b.health = 10 ∧
      b.position.z = 20 ∧
      (b.position.x - w.player.position.x) ^ 2 +
        (b.position.y - w.player.position.y) ^ 2 = 45 ^ 2) ∧
    (bossSpawnStep o k w).1.next_boss_score =
      w.next_boss_score + w.boss_spawn_score ∧
    (∀ (p : Projectile) (b : Enemy) (score : ℤ), hitCond p b →
      b.health - p.weapon.damage ≤ 0 →
      projBossCheck p (some b) score =
        (none, { p with active := false }, score + 1000)) := by
  refine ⟨?_, ?_, ?_⟩
  · rw [bossSpawnStep, if_pos ⟨hs, hb⟩]
    set c := o.cos (radians o (uniform o k 0 360)) with hc
    set s := o.sin (radians o (uniform o k 0 360)) with hs'
    refine ⟨(mkBoss o (k + 1)
      ⟨w.player.position.x + c * 45, w.player.position.y + s * 45, 20⟩).1,
      rfl, ?_, ?_, ?_⟩
    · exact (mkBoss_fields o (k + 1) _).2
    · rw [(mkBoss_fields o (k + 1) _).1]
    · rw [(mkBoss_fields o (k + 1) _).1]
      show (w.player.position.x + c * 45 - w.player.position.x) ^ 2 +
        (w.player.position.y + s * 45 - w.player.position.y) ^ 2 = 45 ^ 2
      linear_combination (2025 : ℚ) * htrig
  · rw [bossSpawnStep, if_pos ⟨hs, hb⟩]
  · intro p b score hhit hdead
    rw [projBossCheck, if_pos hhit]
    simp [hdead]

/-- Claim C5, witness: the spawn contract applied to the concrete
threshold-reaching world `wC5` under the concrete oracle `oC5`. -/
theorem c5_witness :
    (∃ b, (bossSpawnStep oC5 0 wC5).1.boss = some b ∧ b.health = 10 ∧
      b.position.z = 20 ∧
      (b.position.x - wC5.player.position.x) ^ 2 +
        (b.position.y - wC5.player.position.y) ^ 2 = 45 ^ 2) ∧
    (bossSpawnStep oC5 0 wC5).1.next_boss_score =
      wC5.next_boss_score + wC5.boss_spawn_score := by
  have h := c5_boss_spawn oC5 0 wC5 (by norm_num [wC5, mkWorld, mkPlayer]) rfl
    (by norm_num [oC5])
  exact ⟨h.1, h.2.1⟩

/-- A projectile fired at the spread target obtained from aim `(1,0,0)`
rotated by θ has direction exactly `(cos θ, sin θ, 0)` - the target is at
range 100 from the player and the delta has length 100 whenever
`cos² + sin² = 1`. -/
theorem fanShot_eq (o : Oracle) (pos : Vec3) (w : Weapon) (θ : ℚ)
    (hcs : o.cos θ ^ 2 + o.sin θ ^ 2 = 1) (hsqrt : o.sqrt 10000 = 100) :
    mkProjectile o pos
      ⟨pos.x + (1 * o.cos θ - 0 * o.sin θ) * 100,
       pos.y + (1 * o.sin θ + 0 * o.cos θ) * 100,
       pos.z + 0 * 100⟩ w =
    { position := pos, direction := ⟨o.cos θ, o.sin θ, 0⟩, weapon := w,
      speed := w.speedStat * LASER_SPEED, lifetime := 1, active := true,
      radius := 2, length := 5 } := by
  unfold mkProjectile
  dsimp only
  have harg :
      (pos.x + (1 * o.cos θ - 0 * o.sin θ) * 100 - pos.x) *
        (pos.x + (1 * o.cos θ - 0 * o.sin θ) * 100 - pos.x) +
      (pos.y + (1 * o.sin θ + 0 * o.cos θ) * 100 - pos.y) *
        (pos.y + (1 * o.sin θ + 0 * o.cos θ) * 100 - pos.y) +
      (pos.z + 0 * 100 - pos.z) * (pos.z + 0 * 100 - pos.z) = 10000 := by
    linear_combination (10000 : ℚ) * hcs
  rw [harg, hsqrt]
  have h100 : (0 : ℚ) < 100 := by norm_num
  rw [if_pos h100]
  simp only [Projectile.mk.injEq, Vec3.mk.injEq]
  norm_num

/-- Claim C6: firing once with aim direction `(1,0,0)` (trigger held, weapon
cooldown elapsed) appends the spread fan to the projectile list; for a
non-railgun weapon the fan is exactly 3 projectiles whose directions are
`(1,0,0)` rotated in the x-y plane by `(i - 1) × spread` for `i = 0, 1, 2`
(z held constant); the railgun fan is a single projectile; and every fan
projectile's speed is the weapon's speed stat times the global multiplier. -/
theorem c6_fire_fan (env : Env) (p : Player) (enemies : List Enemy)
    (hdir : p.get_aim_direction env enemies = ⟨1, 0, 0⟩)
    (htrigger : env.mouseLeft = true)
    (hcool : p.current_weapon.cooldown < env.now - p.last_shot_time)
    (hpyth : ∀ θ, env.o.cos θ ^ 2 + env.o.sin θ ^ 2 = 1)
    (hsqrt : env.o.sqrt 10000 = 100) :
    (p.shootStep env enemies).projectiles =
      p.projectiles ++ shotFan env.o p.position ⟨1, 0, 0⟩ p.current_weapon ∧
    (p.current_weapon ≠ .railgun →
      (shotFan env.o p.position ⟨1, 0, 0⟩ p.current_weapon).map
          Projectile.direction =
        [rotXY env.o ((0 - 1) * p.current_weapon.spread) ⟨1, 0, 0⟩,
         rotXY env.o ((1 - 1) * p.current_weapon.spread) ⟨1, 0, 0⟩,
         rotXY env.o ((2 - 1) * p.current_weapon.spread) ⟨1, 0, 0⟩]) ∧
    (shotFan env.o p.position ⟨1, 0, 0⟩ .railgun).length = 1 ∧
    (∀ q ∈ shotFan env.o p.position ⟨1, 0, 0⟩ p.current_weapon,
      q.speed = p.current_weapon.speedStat * LASER_SPEED) := by
  refine ⟨?_, ?_, ?_, ?_⟩
  · rw [Player.shootStep]
    simp only [htrigger, true_or, if_true, if_pos hcool, hdir]
    norm_num
  · intro hrail
    rw [shotFan, if_neg hrail]
    show List.map Projectile.direction
      [_, _, _] = _
    simp only [List.map_cons, List.map_nil]
    rw [fanShot_eq env.o p.position p.current_weapon _ (hpyth _) hsqrt,
        fanShot_eq env.o p.position p.current_weapon _ (hpyth _) hsqrt,
        fanShot_eq env.o p.position p.current_weapon _ (hpyth _) hsqrt]
    simp [rotXY]
    norm_num
  · rfl
  · intro q hq
    rw [shotFan] at hq
    split at hq <;>
    · simp only [List.mem_map, List.mem_range] at hq
      obtain ⟨i, _, rfl⟩ := hq
      rfl

/-- Claim C6, witness: the initial player (laser equipped, cooldown long
elapsed) aiming at `(1,0,0)` through the centered-right pointer fires a fan
of exactly 3 projectiles. -/
theorem c6_witness :
    (mkPlayer.shootStep envC6 []).projectiles =
      mkPlayer.projectiles ++
        shotFan oC6 mkPlayer.position ⟨1, 0, 0⟩ mkPlayer.current_weapon ∧
    (shotFan oC6 mkPlayer.position ⟨1, 0, 0⟩ mkPlayer.current_weapon).length
      = 3 := by
  have h := c6_fire_fan envC6 mkPlayer []
    (by norm_num [Player.get_aim_direction, mkPlayer, envC6, oC6,
      WINDOW_WIDTH, WINDOW_HEIGHT])
    rfl
    (by norm_num [mkPlayer, envC6, Weapon.cooldown])
    (by intro θ; norm_num [envC6, oC6])
    (by norm_num [envC6, oC6])
  refine ⟨h.1, ?_⟩
  have h2 := h.2.1 (by simp [mkPlayer])
  have := congrArg List.length h2
  simpa using this

/-- Claim C7, counterexample: one advance of 2.5 s drives the fresh bomb's
lifetime to -0.5 ≤ 0, yet the bomb is still active (it has merely
detonated and lingers for its explosion time) - so "inactive exactly once
lifetime ≤ 0" fails for bombs. -/
theorem c7_counterexample :
    (bombC7.update 2.5).lifetime ≤ 0 ∧ (bombC7.update 2.5).exploded = true ∧
      (bombC7.update 2.5).active = true := by
  norm_num [bombC7, mkBomb, Bomb.update]

/-- Claim C7 (amended): for nonnegative `dt` every advance is nonincreasing
in lifetime; a projectile is active after an advance iff it was active and
its new lifetime is positive (so it never returns to active); particles
(which carry no active flag) are pruned by their owner exactly when their
lifetime is nonpositive, as are deactivated projectiles; a bomb whose
travel lifetime reaches ≤ 0 first flips to detonated, and it is active
after an advance iff it was active and, when already detonated, its linger
timer stays positive. -/
theorem c7_lifetime_contract :
    (∀ (p : Projectile) (dt : ℚ), 0 ≤ dt → (p.update dt).lifetime ≤ p.lifetime) ∧
    (∀ (p : Projectile) (dt : ℚ),
      (p.update dt).active = true ↔ 0 < p.lifetime - dt ∧ p.active = true) ∧
    (∀ (q : Particle) (dt : ℚ), 0 ≤ dt → (q.update dt).lifetime ≤ q.lifetime) ∧
    (∀ (dt : ℚ) (qs : List Particle),
      pruneParticles dt qs =
        (qs.map (Particle.update · dt)).filter fun q => decide (0 < q.lifetime)) ∧
    (∀ (dt : ℚ) (ps : List Projectile),
      pruneProjectiles dt ps =
        (ps.map (Projectile.update · dt)).filter Projectile.active) ∧
    (∀ (b : Bomb) (dt : ℚ), 0 ≤ dt → (b.update dt).lifetime ≤ b.lifetime) ∧
    (∀ (b : Bomb) (dt : ℚ), b.exploded = false →
      ((b.update dt).exploded = true ↔ b.lifetime - dt ≤ 0)) ∧
    (∀ (b : Bomb) (dt : ℚ),
      (b.update dt).active = true ↔
        b.active = true ∧ (b.exploded = true → 0 < b.explosion_time - dt)) := by
  refine ⟨?_, ?_, ?_, ?_, ?_, ?_, ?_, ?_⟩
  · intro p dt h
    simp only [Projectile.update]
    linarith
  · intro p dt
    simp only [Projectile.update]
    by_cases h : p.lifetime - dt ≤ 0
    · simp [h, not_lt.mpr h]
    · simp [h, not_le.mp h, and_comm]
  · intro q dt h
    simp only [Particle.update]
    linarith
  · intro dt qs
    induction qs with
    | nil => rfl
    | cons q rest ih =>
      simp only [pruneParticles, List.map_cons, List.filter_cons]
      by_cases h : (q.update dt).lifetime ≤ 0
      · simp [h, not_lt.mpr h, ih]
      · simp [h, not_le.mp h, ih]
  · intro dt ps
    induction ps with
    | nil => rfl
    | cons p rest ih =>
      simp only [pruneProjectiles, List.map_cons, List.filter_cons]
      by_cases h : (p.update dt).active = true
      · simp [h, ih]
      · simp [h, ih]
  · intro b dt h
    simp only [Bomb.update]
    by_cases he : b.exploded <;> (simp [he]; try linarith)
  · intro b dt h
    simp [Bomb.update, h]
  · intro b dt
    by_cases he : b.exploded
    · simp only [Bomb.update, he, if_true]
      by_cases h : b.explosion_time - dt ≤ 0
      · simp [h, not_lt.mpr h]
      · simp [h, not_le.mp h]
    · simp [Bomb.update, he]

/-- Claim C7, witness: the contract instantiated on a concrete projectile
and the fresh bomb at `dt = 1`. -/
theorem c7_witness :
    ((pC1.update 1).lifetime ≤ pC1.lifetime) ∧
    ((bombC7.update 1).exploded = true ↔ bombC7.lifetime - 1 ≤ 0) :=
  ⟨c7_lifetime_contract.1 pC1 1 (by norm_num),
   c7_lifetime_contract.2.2.2.2.2.2.1 bombC7 1 rfl⟩

/-- Claim C8: a wave-timer expiry increments the wave counter, resets the
timer to the wave duration, and moves the spawn rate and enemy cap by one
step toward (and capped at) their ceilings 0.05 and 20; below the ceiling
the step is a strict increase, at the ceiling the value stays put, and from
any value at or below its ceiling the parameters never decrease and never
exceed the ceiling. -/
theorem c8_wave_ramp (dt : ℚ) (w : World) :
    (w.wave_timer - dt ≤ 0 →
      (waveStep dt w).wave = w.wave + 1 ∧
      (waveStep dt w).wave_timer = WAVE_DURATION ∧
      (waveStep dt w).spawn_rate = min 0.05 (w.spawn_rate + 0.005) ∧
      (waveStep dt w).max_enemies = min 20 (w.max_enemies + 2)) ∧
    (0 < w.wave_timer - dt →
      (waveStep dt w).spawn_rate = w.spawn_rate ∧
      (waveStep dt w).max_enemies = w.max_enemies) ∧
    (w.spawn_rate ≤ 0.05 →
      w.spawn_rate ≤ (waveStep dt w).spawn_rate ∧
      (waveStep dt w).spawn_rate ≤ 0.05) ∧
    (w.wave_timer - dt ≤ 0 → w.spawn_rate < 0.05 →
      w.spawn_rate < (waveStep dt w).spawn_rate) ∧
    (w.wave_timer - dt ≤ 0 → w.spawn_rate = 0.05 →
      (waveStep dt w).spawn_rate = 0.05) ∧
    (w.max_enemies ≤ 20 →
      w.max_enemies ≤ (waveStep dt w).max_enemies ∧
      (waveStep dt w).max_enemies ≤ 20) ∧
    (w.wave_timer - dt ≤ 0 → w.max_enemies < 20 →
      w.max_enemies < (waveStep dt w).max_enemies) ∧
    (w.wave_timer - dt ≤ 0 → w.max_enemies = 20 →
      (waveStep dt w).max_enemies = 20) := by
  by_cases h : w.wave_timer - dt ≤ 0
  · refine ⟨fun _ => ?_, fun h' => absurd h (not_le.mpr h'), ?_, ?_, ?_, ?_, ?_, ?_⟩
    · simp [waveStep, h]
    · intro hr
      constructor
      · simp only [waveStep, if_pos h]
        rcases le_or_lt (w.spawn_rate + 0.005) 0.05 with h2 | h2
        · rw [min_eq_right h2]; linarith
        · rw [min_eq_left (le_of_lt h2)]; linarith
      · simp only [waveStep, if_pos h]
        exact min_le_left _ _
    · intro _ hr
      simp only [waveStep, if_pos h]
      rcases le_or_lt (w.spawn_rate + 0.005) 0.05 with h2 | h2
      · rw [min_eq_right h2]; linarith
      · rw [min_eq_left (le_of_lt h2)]; linarith
    · intro _ hr
      simp only [waveStep, if_pos h]
      rw [hr]
      norm_num
    · intro hm
      constructor
      · simp only [waveStep, if_pos h]
        exact le_min (by omega) (by omega)
      · simp only [waveStep, if_pos h]
        exact min_le_left _ _
    · intro _ hm
      simp only [waveStep, if_pos h]
      omega
    · intro _ hm
      simp only [waveStep, if_pos h]
      omega
  · have h' : ¬(w.wave_timer - dt ≤ 0) := h
    refine ⟨fun hc => absurd hc h', fun _ => ?_, ?_, fun hc => absurd hc h',
      fun hc => absurd hc h', ?_, fun hc => absurd hc h', fun hc => absurd hc h'⟩
    · simp [waveStep, h']
    · intro hr
      simp [waveStep, h', hr]
    · intro hm
      simp [waveStep, h', hm]

/-- Claim C8, witness: one expiry from the initial difficulty (0.01, 10)
with `dt = 31` strictly raises both parameters. -/
theorem c8_witness :
    (waveStep 31 (mkWorld oC5)).spawn_rate = min 0.05 (0.01 + 0.005) ∧
    (mkWorld oC5).spawn_rate < (waveStep 31 (mkWorld oC5)).spawn_rate ∧
    (mkWorld oC5).max_enemies < (waveStep 31 (mkWorld oC5)).max_enemies := by
  have h := c8_wave_ramp 31 (mkWorld oC5)
  have hexp : (mkWorld oC5).wave_timer - 31 ≤ 0 := by
    norm_num [mkWorld, WAVE_DURATION]
  refine ⟨?_, ?_, ?_⟩
  · have := (h.1 hexp).2.2.1
    rw [this]
    norm_num [mkWorld]
  · exact h.2.2.2.1 hexp (by norm_num [mkWorld])
  · exact h.2.2.2.2.2.2.1 hexp (by norm_num [mkWorld])

/-- Taking damage never touches the bomb list. -/
theorem take_damage_bombs (p : Player) : p.take_damage.bombs = p.bombs := by
  simp only [Player.take_damage]
  repeat' split
  all_goals rfl

/-- The super-power step never touches the bomb list. -/
theorem superPowerStep_bombs (env : Env) (dt : ℚ) (k : ℕ) (p : Player) :
    (p.superPowerStep env dt k).1.bombs = p.bombs := by
  simp only [Player.superPowerStep]
  repeat' split
  all_goals rfl

/-- The cheat toggle never touches the bomb list. -/
theorem cheatStep_bombs (keys : Keys) (p : Player) :
    (p.cheatStep keys).bombs = p.bombs := by
  simp only [Player.cheatStep]
  repeat' split
  all_goals rfl

/-- The shooting step never touches the bomb list. -/
theorem shootStep_bombs (env : Env) (es : List Enemy) (p : Player) :
    (p.shootStep env es).bombs = p.bombs := by
  simp only [Player.shootStep]
  repeat' split
  all_goals rfl

/-- The power-up timer step never touches the bomb list. -/
theorem powerupTimersStep_bombs (dt : ℚ) (p : Player) :
    (p.powerupTimersStep dt).bombs = p.bombs := by
  simp only [Player.powerupTimersStep]
  repeat' split
  all_goals rfl

/-- The combo step never touches the bomb list. -/
theorem comboStep_bombs (n : ℚ) (p : Player) : (p.comboStep n).bombs = p.bombs := by
  simp only [Player.comboStep]
  repeat' split
  all_goals rfl

/-- The invincibility tick never touches the bomb list. -/
theorem invStep_bombs (dt : ℚ) (p : Player) : (p.invStep dt).bombs = p.bombs := by
  simp only [Player.invStep]
  repeat' split
  all_goals rfl

/-- Weapon selection never touches the bomb list. -/
theorem weaponStep_bombs (keys : Keys) (p : Player) :
    (p.weaponStep keys).bombs = p.bombs := by
  simp only [Player.weaponStep]
  repeat' split
  all_goals rfl

/-- Vertical movement never touches the bomb list. -/
theorem verticalStep_bombs (keys : Keys) (p : Player) :
    (p.verticalStep keys).bombs = p.bombs := rfl

/-- Planar movement never touches the bomb list. -/
theorem moveStep_bombs (keys : Keys) (p : Player) :
    (p.moveStep keys).bombs = p.bombs := rfl

/-- Position integration never touches the bomb list. -/
theorem integrateStep_bombs (p : Player) : p.integrateStep.bombs = p.bombs := rfl

/-- Buoyancy never touches the bomb list. -/
theorem floatStep_bombs (p : Player) : p.floatStep.bombs = p.bombs := by
  simp only [Player.floatStep]
  repeat' split
  all_goals rfl

/-- The aim-mode toggle never touches the bomb list. -/
theorem aimStep_bombs (keys : Keys) (p : Player) :
    (p.aimStep keys).bombs = p.bombs := by
  simp only [Player.aimStep]
  repeat' split
  all_goals rfl

/-- The player update never touches the bomb list. -/
theorem player_update_bombs (env : Env) (dt : ℚ) (k : ℕ) (es : List Enemy)
    (p : Player) : (Player.update env dt k es p).1.bombs = p.bombs := by
  rw [Player.update]
  split
  · rfl
  · dsimp only
    simp only [comboStep_bombs, powerupTimersStep_bombs, shootStep_bombs,
      invStep_bombs, weaponStep_bombs, verticalStep_bombs, moveStep_bombs,
      integrateStep_bombs, floatStep_bombs, aimStep_bombs, cheatStep_bombs,
      superPowerStep_bombs]

/-- Power-up effects never touch the bomb list. -/
theorem applyPowerUp_bombs (pu : PowerUp) (p : Player) :
    (applyPowerUp pu p).bombs = p.bombs := by
  rw [applyPowerUp]
  rcases pu.type <;> rfl

/-- The pickup loop never touches the bomb list. -/
theorem pickupLoop_bombs (o : Oracle) (k : ℕ) (player : Player)
    (parts : List Particle) (pus : List PowerUp) :
    (pickupLoop o k player parts pus).2.1.bombs = player.bombs := by
  induction pus generalizing k player parts with
  | nil => rfl
  | cons pu rest ih =>
    rw [pickupLoop]
    split
    · rw [ih]
      exact applyPowerUp_bombs pu player
    · dsimp only
      exact ih k player parts

/-- The enemy contact loop never touches the bomb list. -/
theorem enemyContactLoop_bombs (o : Oracle) (dt : ℚ) (player : Player)
    (over : Bool) (es : List Enemy) :
    (enemyContactLoop o dt player over es).2.1.bombs = player.bombs := by
  induction es generalizing player over with
  | nil => rfl
  | cons e rest ih =>
    rw [enemyContactLoop]
    split
    · dsimp only
      rw [ih]
      split <;> simp [take_damage_bombs]
    · dsimp only
      exact ih player over

/-- The boss contact step never touches the bomb list. -/
theorem bossContactStep_bombs (o : Oracle) (dt : ℚ) (w : World) :
    (bossContactStep o dt w).player.bombs = w.player.bombs := by
  rw [bossContactStep]
  rcases w.boss with _ | b
  · rfl
  · dsimp only
    split
    · dsimp only
      split <;> simp [take_damage_bombs]
    · rfl

/-- The front update phase never touches the bomb list. -/
theorem updateFront_bombs (env : Env) (dt : ℚ) (w : World) :
    (updateFront env dt w).1.player.bombs = w.player.bombs := by
  rw [updateFront]
  dsimp only
  rw [player_update_bombs]
  rw [pickupLoop_bombs]
  have : (waveStep dt w).player = w.player := by
    simp only [waveStep]
    repeat' split
    all_goals rfl
  rw [this]

/-- The super-power sweep changes only score, enemies, boss and particles. -/
theorem superPowerWorldStep_bombs (o : Oracle) (k : ℕ) (w : World) :
    (superPowerWorldStep o k w).1.player.bombs = w.player.bombs := by
  rw [superPowerWorldStep]
  split
  · dsimp only
    rcases w.boss with _ | b
    · rfl
    · dsimp only
      split <;> rfl
  · rfl

/-- The back update phase never touches the bomb list. -/
theorem updateBack_bombs (env : Env) (dt : ℚ) (k : ℕ) (w : World) :
    (updateBack env dt k w).player.bombs = w.player.bombs := by
  rw [updateBack]
  dsimp only
  rw [superPowerWorldStep_bombs]
  have hspawnpu : ∀ (k : ℕ) (w : World),
      (spawnPowerupStep env.o k w).1.player.bombs = w.player.bombs := by
    intro k w
    simp only [spawnPowerupStep]
    repeat' split
    all_goals rfl
  have hespawn : ∀ (k : ℕ) (w : World),
      (enemySpawnStep env.o k w).1.player.bombs = w.player.bombs := by
    intro k w
    simp only [enemySpawnStep]
    repeat' split
    all_goals rfl
  have hbspawn : ∀ (k : ℕ) (w : World),
      (bossSpawnStep env.o k w).1.player.bombs = w.player.bombs := by
    intro k w
    simp only [bossSpawnStep]
    repeat' split
    all_goals rfl
  split
  · split
    · simp only [hspawnpu, superPowerWorldStep_bombs]
      rw [bossContactStep_bombs]
      dsimp only
      rw [enemyContactLoop_bombs]
      simp only [hbspawn, hespawn]
    · simp only [superPowerWorldStep_bombs]
      rw [bossContactStep_bombs]
      dsimp only
      rw [enemyContactLoop_bombs]
      simp only [hbspawn, hespawn]
  · simp only [superPowerWorldStep_bombs]
    rw [bossContactStep_bombs]
    dsimp only
    rw [enemyContactLoop_bombs]
    simp only [hbspawn, hespawn]

/-- A restarted game has an empty bomb list (the player reset clears it). -/
theorem restart_game_bombs (w : World) : w.restart_game.player.bombs = [] := rfl

/-- One world update either keeps the bomb list or (on restart) empties it. -/
theorem update_bombs (env : Env) (dt : ℚ) (w : World) :
    (SolarSystem.update env dt w).player.bombs = w.player.bombs ∨
    (SolarSystem.update env dt w).player.bombs = [] := by
  rw [SolarSystem.update]
  split
  · exact Or.inl rfl
  · dsimp only
    split
    · exact Or.inr (restart_game_bombs _)
    · left
      rw [updateBack_bombs, updateFront_bombs]

/-- Claim C9: in every reachable world the player's bomb list is empty (no
operation ever creates a bomb), so the bomb area-damage pass is the
identity on the enemies, the boss and the score. -/
theorem c9_no_bombs (w : World) (hw : Reachable w) :
    w.player.bombs = [] ∧
    bombLoop w.enemies w.boss w.player.score w.player.bombs =
      (w.enemies, w.boss, w.player.score) := by
  have hb : w.player.bombs = [] := by
    induction hw with
    | init o => rfl
    | step env dt w' hw' ih =>
      rcases update_bombs env dt w' with h | h
      · rw [h, ih]
      · exact h
  refine ⟨hb, ?_⟩
  rw [hb]
  rfl

/-- Claim C9, witness: the invariant applied to the initial world. -/
theorem c9_witness :
    (mkWorld oC5).player.bombs = [] ∧
    bombLoop (mkWorld oC5).enemies (mkWorld oC5).boss
        (mkWorld oC5).player.score (mkWorld oC5).player.bombs =
      ((mkWorld oC5).enemies, (mkWorld oC5).boss, (mkWorld oC5).player.score) :=
  c9_no_bombs (mkWorld oC5) (Reachable.init oC5)

/-- The wave step never touches the game-over flag. -/
theorem waveStep_game_over (dt : ℚ) (w : World) :
    (waveStep dt w).game_over = w.game_over := by
  simp only [waveStep]
  repeat' split
  all_goals rfl

/-- The front update phase never touches the game-over flag. -/
theorem updateFront_game_over (env : Env) (dt : ℚ) (w : World) :
    (updateFront env dt w).1.game_over = w.game_over := by
  rw [updateFront]
  dsimp only
  exact waveStep_game_over dt w

/-- Claim C10: once the game-over flag is set, `update` returns the world
unchanged (so the flag is permanent); and from a running world the flag is
still clear when the restart check runs (nothing before it sets the flag),
so the R-gated restart branch never executes and `update` always continues
into the back phases. -/
theorem c10_game_over_permanent (env : Env) (dt : ℚ) (w : World) :
    (w.game_over = true → SolarSystem.update env dt w = w) ∧
    (w.game_over = false →
      (updateFront env dt w).1.game_over = false ∧
      SolarSystem.update env dt w =
        updateBack env dt (updateFront env dt w).2 (updateFront env dt w).1) := by
  constructor
  · intro h
    rw [SolarSystem.update, if_pos h]
  · intro h
    have hfront : (updateFront env dt w).1.game_over = false := by
      rw [updateFront_game_over, h]
    refine ⟨hfront, ?_⟩
    rw [SolarSystem.update, if_neg (by simp [h])]
    dsimp only
    rw [if_neg (by simp [hfront])]

/-- Claim C10, witness: a concrete game-over world is a fixed point of
`update`. -/
theorem c10_witness :
    SolarSystem.update envC6 0.016 { mkWorld oC5 with game_over := true } =
      { mkWorld oC5 with game_over := true } :=
  (c10_game_over_permanent envC6 0.016 _).1 rfl

